import Mathlib

/-!
Verification of the cryptxspider risk-aggregation and channel-discovery code.

The definitions below are a shallow embedding of the Python sources:
  * `src/config.py`            — configuration constants
  * `src/analyzer/scam_detector.py` — `ScamAnalyzer`
  * `src/memepad/parser.py`    — `MemepadParser`
  * `src/telegram/spider.py`   — `TelegramSpider`
  * `src/main.py`              — `check_external_tokens`

Python floats are modelled as rationals; Python dictionaries that the code
indexes by string keys are modelled as association lists so that a missing key
(a `KeyError`) is observable; network calls are modelled by passing the remote
response in as a value.  Reason strings built by the analyzers are modelled by
the tagged `Reason` type carrying the data interpolated into the message.
-/

namespace CryptxSpider

/-! ## String helpers: Python `str.lower` (ASCII and Cyrillic) and `in`. -/

/-- Python `str.lower` restricted to the alphabets occurring in the
configuration: ASCII `A`–`Z` and Cyrillic `А`–`Я`, `Ё`. -/
def lowerChar (c : Char) : Char :=
  if 65 ≤ c.toNat ∧ c.toNat ≤ 90 then Char.ofNat (c.toNat + 32)
  else if 0x410 ≤ c.toNat ∧ c.toNat ≤ 0x42F then Char.ofNat (c.toNat + 32)
  else if c.toNat = 0x401 then Char.ofNat 0x451
  else c

def lowerStr (s : String) : String := String.mk (s.data.map lowerChar)

/-- Python `needle in hay` on strings: substring containment. -/
def strContainsSub (hay needle : String) : Bool :=
  (List.range (hay.data.length + 1)).any
    (fun i => needle.data.isPrefixOf (hay.data.drop i))

/-- Python `s[:512]`. -/
def strTake512 (s : String) : String := String.mk (s.data.take 512)

/-! ## Configuration constants (`src/config.py`). -/

def SCAM_THRESHOLD : ℚ := 75/100

def MIN_CHANNEL_AGE_DAYS : Int := 14

def SCAM_PATTERNS : List String :=
  ["(?i)100x", "(?i)1000x", "guaranteed.\x7b0,20\x7dprofit",
   "без.\x7b0,10\x7dриска", "without.\x7b0,10\x7drisk",
   "(?i)pump.\x7b0,5\x7ddump", "(?i)скам", "(?i)scam.\x7b0,5\x7dalert"]

def TOKEN_KEYWORDS : List String :=
  ["jetton", "токен", "token", "блюм", "блум", "blum",
   "memepad", "airdrop", "дроп", "эирдроп", "TON", "тон"]

/-- The `RELEVANCE_FACTORS` dict, as an association list with its exact keys. -/
def RELEVANCE_FACTORS : List (String × ℚ) :=
  [("token_mentions", 4/10), ("members_count", 2/10), ("activity", 15/100),
   ("description_relevance", 15/100), ("age", 1/10)]

/-- A value stored in the `CHANNEL_DISCOVERY` dict. -/
inductive ConfigVal where
  | b (x : Bool)
  | n (x : Nat)
  | q (x : ℚ)
  deriving DecidableEq

/-- Python truthiness of a `ConfigVal`. -/
def ConfigVal.truthy : ConfigVal → Bool
  | .b x => x
  | .n x => x ≠ 0
  | .q x => x ≠ 0

/-- The `CHANNEL_DISCOVERY` dict, as an association list with its exact keys. -/
def CHANNEL_DISCOVERY : List (String × ConfigVal) :=
  [("enabled", .b true), ("max_channels_per_run", .n 5),
   ("min_relevance_score", .q (6/10)), ("max_monitored_channels", .n 50),
   ("scan_frequency_hours", .n 6), ("cleanup_frequency_days", .n 7)]

def CHANNEL_SEARCH_KEYWORDS : List String :=
  ["TON", "toncoin", "ton crypto", "ton blockchain",
   "jetton", "memepad", "meme coin", "блюм", "блум",
   "tonblum", "ton diamond", "tonx"]

/-! ## Risk aggregation engine (`src/analyzer/scam_detector.py`). -/

/-- One social-link entry of a token profile.  `days_old` is the age in days
obtained from parsing `created_at` (`none` when the field is absent or fails
to parse, in which case the check silently passes). -/
structure Social where
  type : String
  description : Option String
  days_old : Option Int
  deriving DecidableEq

structure Holder where
  percent : ℚ
  deriving DecidableEq

structure Transaction where
  dummy : Unit := ()
  deriving DecidableEq

/-- Ston.fi response; `liquidity_usd` models `data.get("liquidity", {}).get("usd", 0)`. -/
structure StonfiData where
  liquidity_usd : ℚ
  deriving DecidableEq

structure JettonDetails where
  socials : List Social
  holders : List Holder
  description : String
  ticker : String
  name : String
  short_name : String
  deriving DecidableEq

structure JettonData where
  details : JettonDetails
  transactions : List Transaction
  stonfi_data : Option StonfiData
  deriving DecidableEq

/-- A risk-factor message, tagged with the data the Python code interpolates
into the corresponding f-string. -/
inductive Reason where
  | suspiciousChannelDescription (pattern : String)
  | channelTooNew (days : Int)
  | noHolderData
  | topOver50 (pct : ℚ)
  | topOver30 (pct : ℚ)
  | fewHolders (count : Nat)
  | topFiveOver90 (pct : ℚ)
  | noLiquidityData
  | veryLowLiquidity (usd : ℚ)
  | lowLiquidity (usd : ℚ)
  | noTransactionData
  | fewTransactions (count : Nat)
  | noDescription
  | scamPattern (pattern : String)
  | negativeSentiment
  deriving DecidableEq

/-- Embedding of `ScamAnalyzer.check_fake_channel`. -/
def check_fake_channel (socials : List Social) : Bool × List Reason :=
  let risk_factors := socials.foldl
    (fun acc social =>
      if social.type = "TELEGRAM" then
        let acc :=
          match social.description with
          | some d =>
              if d ≠ "" then
                acc ++ (SCAM_PATTERNS.filter
                  (fun p => strContainsSub (lowerStr d) (lowerStr p))).map
                  Reason.suspiciousChannelDescription
              else acc
          | none => acc
        match social.days_old with
        | some days =>
            if days < MIN_CHANNEL_AGE_DAYS then acc ++ [Reason.channelTooNew days]
            else acc
        | none => acc
      else acc)
    []
  (risk_factors.length > 0, risk_factors)

/-- Embedding of `ScamAnalyzer.analyze_holders`. -/
def analyze_holders (holders : List Holder) : ℚ × List Reason :=
  match holders with
  | [] => (1/2, [Reason.noHolderData])
  | h0 :: rest =>
    let p1 : ℚ × List Reason :=
      if h0.percent > 50 then (95/100, [Reason.topOver50 h0.percent])
      else if h0.percent > 30 then (7/10, [Reason.topOver30 h0.percent])
      else (0, [])
    let p2 : ℚ × List Reason :=
      if (h0 :: rest).length < 10 then
        (max p1.1 (6/10), p1.2 ++ [Reason.fewHolders (h0 :: rest).length])
      else p1
    let top5 : ℚ := (((h0 :: rest).take 5).map Holder.percent).sum
    if top5 > 90 then (max p2.1 (8/10), p2.2 ++ [Reason.topFiveOver90 top5])
    else p2

/-- Embedding of `ScamAnalyzer.analyze_liquidity`. -/
def analyze_liquidity (stonfi_data : Option StonfiData) : ℚ × List Reason :=
  match stonfi_data with
  | none => (1/2, [Reason.noLiquidityData])
  | some d =>
      if d.liquidity_usd < 1000 then (8/10, [Reason.veryLowLiquidity d.liquidity_usd])
      else if d.liquidity_usd < 5000 then (1/2, [Reason.lowLiquidity d.liquidity_usd])
      else (0, [])

/-- Embedding of `ScamAnalyzer.analyze_transactions`. -/
def analyze_transactions (transactions : List Transaction) : ℚ × List Reason :=
  match transactions with
  | [] => (1/2, [Reason.noTransactionData])
  | _ :: _ =>
      if transactions.length < 5 then (6/10, [Reason.fewTransactions transactions.length])
      else (0, [])

/-- Outcome of one call of the optional sentiment pipeline: a labelled score,
or an exception (logged and skipped by the code). -/
inductive SentimentOutcome where
  | result (label : String) (score : ℚ)
  | failed
  deriving DecidableEq

/-- Embedding of `ScamAnalyzer.analyze_description`.  `nlp` is `self.nlp_pipeline`
(`none` when the pipeline failed to initialize). -/
def analyze_description (nlp : Option (String → SentimentOutcome))
    (description : String) : ℚ × List Reason :=
  if description = "" then (1/2, [Reason.noDescription])
  else
    let base : ℚ × List Reason :=
      match SCAM_PATTERNS.find?
          (fun p => strContainsSub (lowerStr description) (lowerStr p)) with
      | some p => (7/10, [Reason.scamPattern p])
      | none => (0, [])
    match nlp with
    | none => base
    | some pipe =>
        match pipe (strTake512 description) with
        | SentimentOutcome.result label score =>
            if label = "1 star" ∧ score > 7/10 then
              (max base.1 (6/10), base.2 ++ [Reason.negativeSentiment])
            else base
        | SentimentOutcome.failed => base

structure RiskAssessment where
  is_scam : Bool
  scam_score : ℚ
  risk_factors : List Reason
  ticker : String
  name : String
  short_name : String
  deriving DecidableEq

/-- Embedding of `ScamAnalyzer.analyze_jetton`: the fake-channel score `0.8` is appended to
`risk_scores` only when the check flags; the other four sub-scores are always
appended; the final score divides the sum of the collected scores by their
number. -/
def analyze_jetton (nlp : Option (String → SentimentOutcome))
    (jd : JettonData) : RiskAssessment :=
  let fc := check_fake_channel jd.details.socials
  let hres := analyze_holders jd.details.holders
  let lres := analyze_liquidity jd.stonfi_data
  let tres := analyze_transactions jd.transactions
  let dres := analyze_description nlp jd.details.description
  let risk_scores : List ℚ :=
    (if fc.1 then [8/10] else []) ++ [hres.1, lres.1, tres.1, dres.1]
  let risk_factors : List Reason :=
    (if fc.1 then fc.2 else []) ++ hres.2 ++ lres.2 ++ tres.2 ++ dres.2
  let final_score : ℚ :=
    if risk_scores.length ≠ 0 then risk_scores.sum / (risk_scores.length : ℚ)
    else 1/2
  { is_scam := decide (final_score ≥ SCAM_THRESHOLD)
    scam_score := final_score
    risk_factors := risk_factors
    ticker := jd.details.ticker
    name := jd.details.name
    short_name := jd.details.short_name }

/-! ## Fetch orchestrator (`src/memepad/parser.py`).

Each remote call is modelled by passing in the response it would receive:
`ok status body` for an HTTP response, `exn` for a network/parse exception.
Every fetcher catches its own errors and substitutes an empty value, so the
fetchers are total functions of their response. -/

inductive FetchInput (α : Type) where
  | ok (status : Nat) (body : α)
  | exn
  deriving DecidableEq

/-- Embedding of `MemepadParser.fetch_jetton_details`: `None` on a non-200 status or error. -/
def fetch_jetton_details (r : FetchInput JettonDetails) : Option JettonDetails :=
  match r with
  | .ok status body => if status = 200 then some body else none
  | .exn => none

/-- Embedding of `MemepadParser.fetch_reactions`: `{}` on a non-200 status or error. -/
def fetch_reactions (r : FetchInput (List (String × Int))) : List (String × Int) :=
  match r with
  | .ok status body => if status = 200 then body else []
  | .exn => []

/-- Embedding of `MemepadParser.fetch_transactions`: the body's `transactions` field with
default `[]`; `[]` on a non-200 status or error. -/
def fetch_transactions (r : FetchInput (Option (List Transaction))) :
    List Transaction :=
  match r with
  | .ok status body => if status = 200 then body.getD [] else []
  | .exn => []

/-- Embedding of `MemepadParser.fetch_stonfi_data`: `None` on a non-200 status or error. -/
def fetch_stonfi_data (r : FetchInput StonfiData) : Option StonfiData :=
  match r with
  | .ok status body => if status = 200 then some body else none
  | .exn => none

structure CompleteJettonData where
  details : Option JettonDetails
  reactions : List (String × Int)
  transactions : List Transaction
  stonfi_data : Option StonfiData
  deriving DecidableEq

/-- Embedding of `MemepadParser.get_complete_jetton_data`: `asyncio.gather` of the four
fetchers; each entry of the returned dict is the result of its own fetcher,
computed from its own remote response only. -/
def get_complete_jetton_data (r1 : FetchInput JettonDetails)
    (r2 : FetchInput (List (String × Int)))
    (r3 : FetchInput (Option (List Transaction)))
    (r4 : FetchInput StonfiData) : CompleteJettonData :=
  { details := fetch_jetton_details r1
    reactions := fetch_reactions r2
    transactions := fetch_transactions r3
    stonfi_data := fetch_stonfi_data r4 }

/-! ## Channel relevance (`TelegramSpider.update_channel_relevance`). -/

/-- The fields of a `TelegramChannel` row that `update_channel_relevance`
reads, with datetime arithmetic already reduced to day counts relative to
`utcnow`.  `days_since_scan` is `none` when `last_scanned_at` is unset and
`age_days` is `none` when `created_at` is unset. -/
structure TgChannel where
  token_mentions_count : Nat
  members_count : Option Nat
  days_since_scan : Option Nat
  description : Option String
  age_days : Option Nat
  relevance_score : ℚ
  deriving DecidableEq

/-- Embedding of `sum(1 for keyword in TOKEN_KEYWORDS if keyword.lower() in description.lower())`. -/
def count_keyword_matches (description : String) : Nat :=
  (TOKEN_KEYWORDS.filter
    (fun k => strContainsSub (lowerStr description) (lowerStr k))).length

/-- The body of `update_channel_relevance` up to the assignment at the end:
each `RELEVANCE_FACTORS[...]` subscript is an association-list lookup, and a
missing key (a `KeyError`) aborts the computation with `none`. -/
def computeRelevance (ch : TgChannel) : Option ℚ := do
  let w1 ← List.lookup "token_mentions" RELEVANCE_FACTORS
  let token_mentions_score := min 1 ((ch.token_mentions_count : ℚ) / 10) * w1
  let w2 ← List.lookup "members_count" RELEVANCE_FACTORS
  let members_score := min 1 ((ch.members_count.getD 0 : ℚ) / 10000) * w2
  let activity_score ←
    match ch.days_since_scan with
    | none => pure (1/2 : ℚ)
    | some d => do
        let w3 ← List.lookup "activity" RELEVANCE_FACTORS
        pure (max (1/10) (1 - (d : ℚ) / 30) * w3)
  let description_score ←
    match ch.description with
    | some d =>
        if d ≠ "" then do
          let w4 ← List.lookup "description" RELEVANCE_FACTORS
          pure (min 1 ((count_keyword_matches d : ℚ) / 5) * w4)
        else pure (1/2 : ℚ)
    | none => pure (1/2 : ℚ)
  let age_score ←
    match ch.age_days with
    | none => pure (1/2 : ℚ)
    | some a => do
        let w5 ← List.lookup "age" RELEVANCE_FACTORS
        pure ((if a < 7 then (2:ℚ)/10 else if a < 30 then 5/10
               else if a < 365 then 9/10 else 7/10) * w5)
  pure (token_mentions_score + members_score + activity_score +
        description_score + age_score)

/-- Embedding of `TelegramSpider.update_channel_relevance`: on success the new score is
stored on the channel and returned; the `except` branch returns the current
`channel.relevance_score` and leaves the channel unmodified. -/
def update_channel_relevance (ch : TgChannel) : TgChannel × ℚ :=
  match computeRelevance ch with
  | some r => ({ ch with relevance_score := r }, r)
  | none => (ch, ch.relevance_score)

/-! ## Channel-link extraction (`TelegramSpider._extract_channel_links`).

The four entries of `TELEGRAM_LINK_PATTERNS` share one shape: an optional
`(?:https?://)?` part, a literal, and one capturing group that is a greedy
repetition of a character class with a minimum count.  `LinkPattern` records
that shape and `findall` implements `re.findall` for it: scan left to right,
at each position try the alternatives of the optional part in the order the
regex engine would (`https://`, then `http://`, then nothing — the
alternatives are mutually exclusive on any fixed text, so taking the first
that completes a match agrees with backtracking), and resume after the end of
a match (matches are non-empty, so scanning advances). -/

/-- Character class `[a-zA-Z0-9_]`. -/
def wordChar (c : Char) : Bool :=
  (97 ≤ c.toNat ∧ c.toNat ≤ 122) ∨ (65 ≤ c.toNat ∧ c.toNat ≤ 90) ∨
  (48 ≤ c.toNat ∧ c.toNat ≤ 57) ∨ c = '_'

/-- Character class `[a-zA-Z0-9_-]`. -/
def wordDashChar (c : Char) : Bool := wordChar c || c = '-'

structure LinkPattern where
  opts : List (List Char)
  middle : List Char
  capClass : Char → Bool
  minRep : Nat

def httpOpts : List (List Char) := ["https://".data, "http://".data, []]

/-- Pattern `t.me/<name>` with word-char capture, minimum length 1. -/
def tmeLinkPat : LinkPattern := ⟨httpOpts, "t.me/".data, wordChar, 1⟩

/-- Pattern `@<name>` with word-char capture, minimum length 5. -/
def atLinkPat : LinkPattern := ⟨[[]], "@".data, wordChar, 5⟩

/-- Invite-link pattern `t.me/+<code>`, word-or-dash capture, minimum 1. -/
def invitePat : LinkPattern := ⟨httpOpts, "t.me/+".data, wordDashChar, 1⟩

/-- Joinchat pattern `t.me/joinchat/<code>`, word-or-dash capture, minimum 1. -/
def joinchatPat : LinkPattern := ⟨httpOpts, "t.me/joinchat/".data, wordDashChar, 1⟩

def TELEGRAM_LINK_PATTERNS : List LinkPattern :=
  [tmeLinkPat, atLinkPat, invitePat, joinchatPat]

/-- Try to match a pattern at the start of `text`; on success return the
total matched length and the captured group. -/
def matchPat (p : LinkPattern) (text : List Char) : Option (Nat × List Char) :=
  p.opts.findSome? (fun a =>
    let lit := a ++ p.middle
    if lit.isPrefixOf text then
      let run := (text.drop lit.length).takeWhile p.capClass
      if p.minRep ≤ run.length then some (lit.length + run.length, run)
      else none
    else none)

/-- The `re.findall` scan; the fuel argument is the remaining text length
(every match consumes at least the non-empty literal, so length-many steps
suffice). -/
def scanFuel (p : LinkPattern) : Nat → List Char → List (List Char)
  | 0, _ => []
  | _ + 1, [] => []
  | n + 1, text =>
      match matchPat p text with
      | some (len, cap) => cap :: scanFuel p n (text.drop len)
      | none => scanFuel p n (text.drop 1)

def findall (p : LinkPattern) (s : String) : List String :=
  (scanFuel p s.data.length s.data).map String.mk

/-- Embedding of `TelegramSpider._extract_channel_links`: union of the matches of all four
patterns, de-duplicated (`list(set(...))`, modelled keeping first
occurrences). -/
def extract_channel_links (text : String) : List String :=
  ((TELEGRAM_LINK_PATTERNS.map (fun p => findall p text)).flatten).dedup

/-! ## Keyword search (`TelegramSpider.search_channels_by_keywords`).

The Telegram provider is a value `provider : String → SearchOutcome`; the
observable behaviour of one sweep is the list of emitted events together with
the accumulated `found_channels` list. -/

/-- Outcome of one `SearchGlobalRequest` for a keyword. -/
inductive SearchOutcome where
  | found (chats : List String)
  | floodWait (seconds : Nat)
  | err
  deriving DecidableEq

inductive SearchEvent where
  | query (kw : String)
  | sleepSecs (n : Nat)
  | interDelay
  | add (ch : String)
  deriving DecidableEq

/-- The per-result body of the success branch: a username not yet in
`found_channels` is appended there and registered (an `add` event). -/
def registerChat (p : List SearchEvent × List String) (ch : String) :
    List SearchEvent × List String :=
  if ch ∈ p.2 then p else (p.1 ++ [SearchEvent.add ch], p.2 ++ [ch])

/-- The `search_channels_by_keywords` body: for each keyword issue the search;
on `FloodWaitError` sleep `e.seconds` and `continue` to the next keyword; on
another exception just continue; on success register each username not yet in
`found_channels`, then sleep the fixed 2-second inter-query delay. -/
def searchAux (provider : String → SearchOutcome) :
    List String → List String → List SearchEvent × List String
  | [], acc => ([], acc)
  | kw :: rest, acc =>
      match provider kw with
      | SearchOutcome.floodWait s =>
          let r := searchAux provider rest acc
          (SearchEvent.query kw :: SearchEvent.sleepSecs s :: r.1, r.2)
      | SearchOutcome.err =>
          let r := searchAux provider rest acc
          (SearchEvent.query kw :: r.1, r.2)
      | SearchOutcome.found chats =>
          let step := chats.foldl registerChat ([], acc)
          let r := searchAux provider rest step.2
          (SearchEvent.query kw :: step.1 ++ [SearchEvent.interDelay] ++ r.1, r.2)

def search_channels_by_keywords (provider : String → SearchOutcome)
    (keywords : List String) : List SearchEvent × List String :=
  searchAux provider keywords []

/-- The keywords queried during a sweep, in order. -/
def queriesOf : List SearchEvent → List String
  | [] => []
  | SearchEvent.query kw :: rest => kw :: queriesOf rest
  | _ :: rest => queriesOf rest

/-- The channels registered during a sweep, in order. -/
def addsOf : List SearchEvent → List String
  | [] => []
  | SearchEvent.add ch :: rest => ch :: addsOf rest
  | _ :: rest => addsOf rest

/-! ## Channel discovery (`TelegramSpider.discover_new_channels`). -/

/-- How one call of `discover_new_channels` ends. -/
inductive DiscoverResult where
  | raised
  | disabled
  | skippedError
  | skippedCap (count cap : Nat)
  | ran (events : List SearchEvent) (found : List String) (scanned : List String)

/-- The spider-visible database state the function reads: the count of active
channels and the usernames of active channels never scanned (in query order). -/
structure SpiderState where
  activeChannelCount : Nat
  unscannedActive : List String

/-- Embedding of `discover_new_channels`: the `enabled` subscript happens outside the
`try`, so a missing key there propagates (`raised`); inside the `try` a
missing `max_channels_total` key is a `KeyError` caught by the outer handler
(`skippedError`); past the cap check the keyword search runs and then up to
`max_channels_per_run` unscanned active channels are swept. -/
def discover_new_channels (cfg : List (String × ConfigVal))
    (provider : String → SearchOutcome) (st : SpiderState) : DiscoverResult :=
  match List.lookup "enabled" cfg with
  | none => .raised
  | some v =>
      if v.truthy = false then .disabled
      else
        match List.lookup "max_channels_total" cfg with
        | none => .skippedError
        | some (.n cap) =>
            if cap ≤ st.activeChannelCount then .skippedCap st.activeChannelCount cap
            else
              let search := search_channels_by_keywords provider CHANNEL_SEARCH_KEYWORDS
              match List.lookup "max_channels_per_run" cfg with
              | some (.n perRun) => .ran search.1 search.2 (st.unscannedActive.take perRun)
              | _ => .skippedError
        | some _ => .skippedError

/-! ## Candidate-token lifecycle (`TelegramSpider._process_message` and
`main.check_external_tokens`). -/

/-- A `PotentialToken` entity as the spider and the reconciliation step use
it (the spec keeps the persistence layer external). -/
structure PotentialToken where
  name : String
  description : String
  mention_count : Nat
  confidence_score : ℚ
  found_on_memepad : Bool
  deriving DecidableEq

/-- The `else` branch of `_process_message`: a newly created candidate. -/
def newPotentialToken (name text : String) : PotentialToken :=
  { name := name, description := text, mention_count := 0,
    confidence_score := 3/10, found_on_memepad := false }

/-- The `if existing_token` branch of `_process_message`: one further mention
of an existing candidate. -/
def mentionUpdate (t : PotentialToken) : PotentialToken :=
  { t with mention_count := t.mention_count + 1,
           confidence_score := min 1 (t.confidence_score + 1/10) }

/-- The marketplace branch of `check_external_tokens`: when the token was
found on Memepad, mark it found and set the fixed confidence `0.9`;
otherwise the record is left as it is (a notification may be sent instead). -/
def reconcileWithMemepad (found_on_memepad : Bool) (t : PotentialToken) :
    PotentialToken :=
  if found_on_memepad then
    { t with found_on_memepad := true, confidence_score := 9/10 }
  else t

/-! ## Concrete inputs used by the claim theorems below. -/

/-- Spec §8 scenario A profile: no socials, holders 60/20/5/5/5 %, liquidity
$500, two transactions, no description. -/
def jdFourScores : JettonData :=
  { details := { socials := [], holders := [⟨60⟩, ⟨20⟩, ⟨5⟩, ⟨5⟩, ⟨5⟩],
                 description := "", ticker := "SCAM1", name := "Scam One",
                 short_name := "scam1" },
    transactions := [{}, {}], stonfi_data := some ⟨500⟩ }

/-- A profile on which every sub-analyzer input is absent. -/
def jdAllMissing : JettonData :=
  { details := { socials := [], holders := [], description := "",
                 ticker := "", name := "", short_name := "" },
    transactions := [], stonfi_data := none }

/-- Spec §8 scenario B profile: no socials, holders 60/20/5/5/5 %, liquidity
$100, three transactions, description `"100x guaranteed profit"`. -/
def jdGuaranteed : JettonData :=
  { details := { socials := [], holders := [⟨60⟩, ⟨20⟩, ⟨5⟩, ⟨5⟩, ⟨5⟩],
                 description := "100x guaranteed profit", ticker := "SCAM2",
                 name := "Scam Two", short_name := "scam2" },
    transactions := [{}, {}, {}], stonfi_data := some ⟨100⟩ }

/-- Spec §8 relevance scenario: 12 mentions, 500 members, scanned 5 days ago,
keyword-rich description (6 keyword hits), created 90 days ago, stored
relevance still at the initial `0.5`. -/
def chKeywordRich : TgChannel :=
  { token_mentions_count := 12, members_count := some 500,
    days_since_scan := some 5,
    description := some "jetton token blum airdrop memepad ton",
    age_days := some 90, relevance_score := 1/2 }

/-- A provider that rate-limits the keyword `"TON"` (30 seconds) and returns
one channel for any other keyword. -/
def floodOnTON : String → SearchOutcome :=
  fun k => if k = "TON" then SearchOutcome.floodWait 30
           else SearchOutcome.found ["chan2"]

/-! ## Range lemmas for the sub-analyzers. -/

lemma analyze_holders_bounds (hs : List Holder) :
    0 ≤ (analyze_holders hs).1 ∧ (analyze_holders hs).1 ≤ 1 := by
  cases hs with
  | nil => constructor <;> norm_num [analyze_holders]
  | cons a l =>
      constructor <;>
        (dsimp only [analyze_holders]
         split_ifs <;> simp_all [le_max_iff, max_le_iff] <;> norm_num)

lemma analyze_liquidity_bounds (d : Option StonfiData) :
    0 ≤ (analyze_liquidity d).1 ∧ (analyze_liquidity d).1 ≤ 1 := by
  cases d with
  | none => constructor <;> norm_num [analyze_liquidity]
  | some s =>
      constructor <;>
        (dsimp only [analyze_liquidity]; split_ifs <;> norm_num)

lemma analyze_transactions_bounds (t : List Transaction) :
    0 ≤ (analyze_transactions t).1 ∧ (analyze_transactions t).1 ≤ 1 := by
  cases t with
  | nil => constructor <;> norm_num [analyze_transactions]
  | cons a l =>
      constructor <;>
        (dsimp only [analyze_transactions]; split_ifs <;> norm_num)

lemma analyze_description_bounds (nlp : Option (String → SentimentOutcome))
    (d : String) :
    0 ≤ (analyze_description nlp d).1 ∧ (analyze_description nlp d).1 ≤ 1 := by
  unfold analyze_description
  by_cases hd : d = ""
  · simp [hd]; norm_num
  · simp only [hd, if_neg, if_false]
    cases hfind : SCAM_PATTERNS.find?
        (fun p => strContainsSub (lowerStr d) (lowerStr p)) <;>
      cases nlp with
      | none => simp [hfind] <;> norm_num
      | some pipe =>
          cases hout : pipe (strTake512 d) with
          | result label score =>
              simp only [hfind, hout]
              split_ifs <;> constructor <;>
                simp [le_max_iff, max_le_iff] <;> norm_num
          | failed => simp [hfind, hout] <;> norm_num

/-- The final score of `analyze_jetton` as a closed formula: a mean of five
collected scores when the fake-channel check flags, of four otherwise. -/
lemma analyze_jetton_score_eq (nlp : Option (String → SentimentOutcome))
    (jd : JettonData) :
    (analyze_jetton nlp jd).scam_score =
      (if (check_fake_channel jd.details.socials).1 then
         (8/10 + (analyze_holders jd.details.holders).1
          + (analyze_liquidity jd.stonfi_data).1
          + (analyze_transactions jd.transactions).1
          + (analyze_description nlp jd.details.description).1) / 5
       else
         ((analyze_holders jd.details.holders).1
          + (analyze_liquidity jd.stonfi_data).1
          + (analyze_transactions jd.transactions).1
          + (analyze_description nlp jd.details.description).1) / 4) := by
  cases hfc : (check_fake_channel jd.details.socials).1 <;>
    simp [analyze_jetton, hfc] <;> ring_nf

lemma analyze_jetton_is_scam_iff (nlp : Option (String → SentimentOutcome))
    (jd : JettonData) :
    ((analyze_jetton nlp jd).is_scam = true ↔
      3/4 ≤ (analyze_jetton nlp jd).scam_score) := by
  have h : (analyze_jetton nlp jd).is_scam
      = decide (SCAM_THRESHOLD ≤ (analyze_jetton nlp jd).scam_score) := rfl
  rw [h, decide_eq_true_eq]
  norm_num [SCAM_THRESHOLD]

lemma analyze_jetton_is_scam_false (nlp : Option (String → SentimentOutcome))
    (jd : JettonData) (h : (analyze_jetton nlp jd).scam_score < 3/4) :
    (analyze_jetton nlp jd).is_scam = false := by
  cases hb : (analyze_jetton nlp jd).is_scam
  · rfl
  · exact absurd ((analyze_jetton_is_scam_iff nlp jd).mp hb) (not_le.mpr h)

/-! ## Claim C1. -/

/-- C1, counterexample: on a profile whose fake-channel check does not flag,
`analyze_jetton` returns the mean of the four collected sub-scores
(`0.7125`), which differs from the mean of five sub-scores with a
fake-channel contribution of `0` (`0.57`), of `0.5` (`0.67`), or of `0.8`
(`0.73`) — so the score is not the unweighted mean of exactly five
sub-scores. -/
theorem c1_five_mean_counterexample :
    (analyze_jetton none jdFourScores).scam_score = 57/80
    ∧ (check_fake_channel jdFourScores.details.socials).1 = false
    ∧ (analyze_holders jdFourScores.details.holders).1 = 95/100
    ∧ (analyze_liquidity jdFourScores.stonfi_data).1 = 8/10
    ∧ (analyze_transactions jdFourScores.transactions).1 = 6/10
    ∧ (analyze_description none jdFourScores.details.description).1 = 1/2
    ∧ ¬((57:ℚ)/80 = (0 + 95/100 + 8/10 + 6/10 + 1/2) / 5)
    ∧ ¬((57:ℚ)/80 = (1/2 + 95/100 + 8/10 + 6/10 + 1/2) / 5)
    ∧ ¬((57:ℚ)/80 = (8/10 + 95/100 + 8/10 + 6/10 + 1/2) / 5) := by
  refine ⟨?_, rfl, ?_, ?_, ?_, rfl, by norm_num, by norm_num, by norm_num⟩ <;>
    norm_num [analyze_jetton, analyze_holders, analyze_liquidity,
      analyze_transactions, analyze_description, check_fake_channel,
      jdFourScores]

/-- C1as amended: `scam_score` is the unweighted mean of the sub-scores that
`analyze_jetton` collects — the four always-run sub-scores (holders,
liquidity, transactions, description) plus a fifth fixed `0.8` fake-channel
score only when that check flags.  A sub-analyzer whose input is missing
contributes exactly `0.5` together with a reason noting absent data; the
final score lies in `[0,1]`; and `is_scam` holds iff the score is
`≥ 0.75`. -/
theorem c1_scam_score_mean_amended (nlp : Option (String → SentimentOutcome))
    (jd : JettonData) :
    (analyze_jetton nlp jd).scam_score =
      (if (check_fake_channel jd.details.socials).1 then
         (8/10 + (analyze_holders jd.details.holders).1
          + (analyze_liquidity jd.stonfi_data).1
          + (analyze_transactions jd.transactions).1
          + (analyze_description nlp jd.details.description).1) / 5
       else
         ((analyze_holders jd.details.holders).1
          + (analyze_liquidity jd.stonfi_data).1
          + (analyze_transactions jd.transactions).1
          + (analyze_description nlp jd.details.description).1) / 4)
    ∧ 0 ≤ (analyze_jetton nlp jd).scam_score
    ∧ (analyze_jetton nlp jd).scam_score ≤ 1
    ∧ ((analyze_jetton nlp jd).is_scam = true ↔
        3/4 ≤ (analyze_jetton nlp jd).scam_score)
    ∧ (jd.details.holders = [] →
        analyze_holders jd.details.holders = (1/2, [Reason.noHolderData])
        ∧ Reason.noHolderData ∈ (analyze_jetton nlp jd).risk_factors)
    ∧ (jd.stonfi_data = none →
        analyze_liquidity jd.stonfi_data = (1/2, [Reason.noLiquidityData])
        ∧ Reason.noLiquidityData ∈ (analyze_jetton nlp jd).risk_factors)
    ∧ (jd.transactions = [] →
        analyze_transactions jd.transactions = (1/2, [Reason.noTransactionData])
        ∧ Reason.noTransactionData ∈ (analyze_jetton nlp jd).risk_factors)
    ∧ (jd.details.description = "" →
        analyze_description nlp jd.details.description = (1/2, [Reason.noDescription])
        ∧ Reason.noDescription ∈ (analyze_jetton nlp jd).risk_factors) := by
  obtain ⟨hh0, hh1⟩ := analyze_holders_bounds jd.details.holders
  obtain ⟨hl0, hl1⟩ := analyze_liquidity_bounds jd.stonfi_data
  obtain ⟨ht0, ht1⟩ := analyze_transactions_bounds jd.transactions
  obtain ⟨hd0, hd1⟩ := analyze_description_bounds nlp jd.details.description
  refine ⟨analyze_jetton_score_eq nlp jd, ?_, ?_, analyze_jetton_is_scam_iff nlp jd,
          ?_, ?_, ?_, ?_⟩
  · rw [analyze_jetton_score_eq]
    split_ifs <;> (apply div_nonneg _ (by norm_num); linarith)
  · rw [analyze_jetton_score_eq]
    split_ifs <;> (rw [div_le_one (by norm_num)]; linarith)
  · intro hH
    refine ⟨by rw [hH]; rfl, ?_⟩
    simp [analyze_jetton, hH, analyze_holders, List.mem_append]
  · intro hL
    refine ⟨by rw [hL]; rfl, ?_⟩
    simp [analyze_jetton, hL, analyze_liquidity, List.mem_append]
  · intro hT
    refine ⟨by rw [hT]; rfl, ?_⟩
    simp [analyze_jetton, hT, analyze_transactions, List.mem_append]
  · intro hD
    refine ⟨by rw [hD]; rfl, ?_⟩
    simp [analyze_jetton, hD, analyze_description, List.mem_append]

/-- C1 auxiliary computation: the score of the all-missing profile. -/
lemma jdAllMissing_score : (analyze_jetton none jdAllMissing).scam_score = 1/2 := by
  rw [analyze_jetton_score_eq]
  norm_num [check_fake_channel, jdAllMissing, analyze_holders,
    analyze_liquidity, analyze_transactions, analyze_description]

/-- C1 witness: the amended theorem applied to the all-missing profile: every
sub-analyzer contributes `0.5` with its absent-data reason, and the score is
`0.5` (the mean of the four collected sub-scores). -/
theorem c1_scam_score_mean_witness :
    (analyze_jetton none jdAllMissing).scam_score = 1/2
    ∧ (analyze_jetton none jdAllMissing).is_scam = false
    ∧ analyze_holders jdAllMissing.details.holders = (1/2, [Reason.noHolderData])
    ∧ Reason.noHolderData ∈ (analyze_jetton none jdAllMissing).risk_factors
    ∧ analyze_liquidity jdAllMissing.stonfi_data = (1/2, [Reason.noLiquidityData])
    ∧ Reason.noLiquidityData ∈ (analyze_jetton none jdAllMissing).risk_factors
    ∧ analyze_transactions jdAllMissing.transactions = (1/2, [Reason.noTransactionData])
    ∧ Reason.noTransactionData ∈ (analyze_jetton none jdAllMissing).risk_factors
    ∧ analyze_description none jdAllMissing.details.description = (1/2, [Reason.noDescription])
    ∧ Reason.noDescription ∈ (analyze_jetton none jdAllMissing).risk_factors := by
  obtain ⟨hf, h0, h1, hiff, hH, hL, hT, hD⟩ :=
    c1_scam_score_mean_amended none jdAllMissing
  refine ⟨jdAllMissing_score, ?_, (hH rfl).1, (hH rfl).2, (hL rfl).1, (hL rfl).2,
          (hT rfl).1, (hT rfl).2, (hD rfl).1, (hD rfl).2⟩
  exact analyze_jetton_is_scam_false none jdAllMissing
    (by rw [jdAllMissing_score]; norm_num)

/-! ## Claim C2. -/

/-- C2, counterexample: on the spec's relevance scenario (12 mentions, 500
members, scanned 5 days ago, keyword-rich description, 90 days old),
`update_channel_relevance` returns the channel unchanged with its previous
score `0.5` — it does not compute and store `≈ 0.7345`, because the lookup of
the weight key `"description"` fails (`RELEVANCE_FACTORS` names that weight
`"description_relevance"`) and the error is caught. -/
theorem c2_relevance_counterexample :
    update_channel_relevance chKeywordRich = (chKeywordRich, 1/2)
    ∧ chKeywordRich.relevance_score = 1/2
    ∧ ¬((1:ℚ)/2 = 7345/10000) := by
  exact ⟨rfl, rfl, by norm_num⟩

/-- C2 as amended: for every channel with a non-empty description (the
scenario's channel included), `update_channel_relevance` hits the missing
`"description"` weight key, the `KeyError` is caught, and the function leaves
the stored relevance unchanged and returns the previous score; nothing is
computed or stored. -/
theorem c2_relevance_update_amended (ch : TgChannel)
    (h : ch.description.getD "" ≠ "") :
    update_channel_relevance ch = (ch, ch.relevance_score) := by
  cases hd : ch.description with
  | none => simp [hd] at h
  | some d =>
      have hdne : d ≠ "" := by simpa [hd] using h
      have e1 : List.lookup "token_mentions" RELEVANCE_FACTORS = some (4/10) := rfl
      have e2 : List.lookup "members_count" RELEVANCE_FACTORS = some (2/10) := rfl
      have e3 : List.lookup "activity" RELEVANCE_FACTORS = some (15/100) := rfl
      have e4 : List.lookup "description" RELEVANCE_FACTORS = none := rfl
      have hcr : computeRelevance ch = none := by
        cases hscan : ch.days_since_scan <;>
          simp [computeRelevance, hd, hdne, hscan, e1, e2, e3, e4]
      simp [update_channel_relevance, hcr]

/-- C2 witness: the amended theorem applied to the scenario channel. -/
theorem c2_relevance_update_witness :
    chKeywordRich.description.getD "" ≠ ""
    ∧ update_channel_relevance chKeywordRich
        = (chKeywordRich, chKeywordRich.relevance_score) :=
  ⟨by decide, c2_relevance_update_amended chKeywordRich (by decide)⟩

/-! ## Claim C3. -/

/-- C3, counterexample: the description `"100x guaranteed profit"` matches no
entry of `SCAM_PATTERNS` under the code's literal substring containment (the
entries are regex strings such as `"(?i)100x"`), so the description sub-score
is `0`, not `0.7`, and the final score on the scenario-B profile is `0.5875`
(the mean of the four collected sub-scores), not `0.61`. -/
theorem c3_end_to_end_counterexample :
    (analyze_description none "100x guaranteed profit").1 = 0
    ∧ (analyze_jetton none jdGuaranteed).scam_score = 47/80
    ∧ ¬((0:ℚ) = 7/10)
    ∧ ¬((47:ℚ)/80 = 61/100) := by
  have hdesc : analyze_description none "100x guaranteed profit"
      = (0, []) := rfl
  refine ⟨rfl, ?_, by norm_num, by norm_num⟩
  rw [analyze_jetton_score_eq]
  norm_num [check_fake_channel, jdGuaranteed, analyze_holders,
    analyze_liquidity, analyze_transactions, hdesc]

/-- C3 as amended: on the scenario-B profile the fake-channel check
contributes no entry, the sub-scores are holders `0.95`, liquidity `0.8`,
transactions `0.6` and description `0.0`, the final score is the mean of the
four collected sub-scores, `0.5875`, and `is_scam` is `false`. -/
theorem c3_end_to_end_amended :
    (check_fake_channel jdGuaranteed.details.socials).1 = false
    ∧ (analyze_holders jdGuaranteed.details.holders).1 = 95/100
    ∧ (analyze_liquidity jdGuaranteed.stonfi_data).1 = 8/10
    ∧ (analyze_transactions jdGuaranteed.transactions).1 = 6/10
    ∧ (analyze_description none jdGuaranteed.details.description).1 = 0
    ∧ (analyze_jetton none jdGuaranteed).scam_score = 47/80
    ∧ (analyze_jetton none jdGuaranteed).is_scam = false := by
  have hdesc : analyze_description none "100x guaranteed profit"
      = (0, []) := rfl
  have hsc : (analyze_jetton none jdGuaranteed).scam_score = 47/80 := by
    rw [analyze_jetton_score_eq]
    norm_num [check_fake_channel, jdGuaranteed, analyze_holders,
      analyze_liquidity, analyze_transactions, hdesc]
  refine ⟨rfl, ?_, ?_, ?_, rfl, hsc,
    analyze_jetton_is_scam_false none jdGuaranteed (by rw [hsc]; norm_num)⟩
  · norm_num [analyze_holders, jdGuaranteed]
  · norm_num [analyze_liquidity, jdGuaranteed]
  · norm_num [analyze_transactions, jdGuaranteed]

/-! ## Keyword-search lemmas (claim C4). -/

lemma queriesOf_append (a b : List SearchEvent) :
    queriesOf (a ++ b) = queriesOf a ++ queriesOf b := by
  induction a with
  | nil => rfl
  | cons e rest ih => cases e <;> simp [queriesOf, ih]

lemma addsOf_append (a b : List SearchEvent) :
    addsOf (a ++ b) = addsOf a ++ addsOf b := by
  induction a with
  | nil => rfl
  | cons e rest ih => cases e <;> simp [addsOf, ih]

/-- The success-branch fold only appends `add` events. -/
lemma foldl_registerChat_fst (chats : List String) (evs0 : List SearchEvent)
    (acc : List String) :
    ∃ l : List String,
      (chats.foldl registerChat (evs0, acc)).1 = evs0 ++ l.map SearchEvent.add := by
  induction chats generalizing evs0 acc with
  | nil => exact ⟨[], by simp⟩
  | cons ch rest ih =>
      simp only [List.foldl_cons, registerChat]
      by_cases h : ch ∈ acc
      · simpa [h] using ih evs0 acc
      · obtain ⟨l, hl⟩ := ih (evs0 ++ [SearchEvent.add ch]) (acc ++ [ch])
        exact ⟨ch :: l, by simp [h, hl]⟩

lemma queriesOf_map_add (l : List String) :
    queriesOf (l.map SearchEvent.add) = [] := by
  induction l with
  | nil => rfl
  | cons ch rest ih => simp [queriesOf, ih]

/-- Every keyword of the sweep is queried exactly once, in order. -/
lemma searchAux_queries (p : String → SearchOutcome) (kws : List String) :
    ∀ acc, queriesOf (searchAux p kws acc).1 = kws := by
  induction kws with
  | nil => intro acc; rfl
  | cons kw rest ih =>
      intro acc
      cases hp : p kw with
      | floodWait s => simp [searchAux, hp, queriesOf, ih]
      | err => simp [searchAux, hp, queriesOf, ih]
      | found chats =>
          obtain ⟨l, hl⟩ := foldl_registerChat_fst chats [] acc
          simp [searchAux, hp, hl, queriesOf, queriesOf_append,
            queriesOf_map_add, ih]

/-- A rate-limited keyword is followed, immediately after its single query,
by a sleep of the provider-specified duration. -/
lemma searchAux_flood_mem (p : String → SearchOutcome) (kws : List String) :
    ∀ acc kw s, kw ∈ kws → p kw = SearchOutcome.floodWait s →
      ∃ l1 l2, (searchAux p kws acc).1
        = l1 ++ SearchEvent.query kw :: SearchEvent.sleepSecs s :: l2 := by
  induction kws with
  | nil => intro acc kw s h _; exact absurd h (List.not_mem_nil kw)
  | cons k rest ih =>
      intro acc kw s hmem hp
      by_cases hk : k = kw
      · subst hk
        exact ⟨[], (searchAux p rest acc).1, by simp [searchAux, hp]⟩
      · have hmem' : kw ∈ rest := by
          rcases List.mem_cons.mp hmem with h | h
          · exact absurd h.symm hk
          · exact h
        cases hpk : p k with
        | floodWait s2 =>
            obtain ⟨l1, l2, hl⟩ := ih acc kw s hmem' hp
            exact ⟨SearchEvent.query k :: SearchEvent.sleepSecs s2 :: l1, l2,
              by simp [searchAux, hpk, hl]⟩
        | err =>
            obtain ⟨l1, l2, hl⟩ := ih acc kw s hmem' hp
            exact ⟨SearchEvent.query k :: l1, l2, by simp [searchAux, hpk, hl]⟩
        | found chats =>
            obtain ⟨l1, l2, hl⟩ :=
              ih (chats.foldl registerChat ([], acc)).2 kw s hmem' hp
            exact ⟨SearchEvent.query k :: (chats.foldl registerChat ([], acc)).1
                ++ SearchEvent.interDelay :: l1, l2,
              by simp [searchAux, hpk, hl]⟩

/-- A rate-limited keyword contributes exactly as much as a failed one:
nothing — the registered channels and the returned list are the same as if
the keyword's search had simply raised. -/
lemma searchAux_flood_as_err (p : String → SearchOutcome) (kw : String)
    (s : Nat) (hp : p kw = SearchOutcome.floodWait s) (kws : List String) :
    ∀ acc,
      addsOf (searchAux p kws acc).1
        = addsOf (searchAux
            (fun k => if k = kw then SearchOutcome.err else p k) kws acc).1
      ∧ (searchAux p kws acc).2
        = (searchAux
            (fun k => if k = kw then SearchOutcome.err else p k) kws acc).2 := by
  induction kws with
  | nil => intro acc; exact ⟨rfl, rfl⟩
  | cons k rest ih =>
      intro acc
      by_cases hk : k = kw
      · subst hk
        have h2 : (fun k2 => if k2 = k then SearchOutcome.err else p k2) k
            = SearchOutcome.err := by simp
        obtain ⟨ha, hs⟩ := ih acc
        constructor
        · simpa [searchAux, hp, h2, addsOf] using ha
        · simpa [searchAux, hp, h2] using hs
      · have h2 : (fun k2 => if k2 = kw then SearchOutcome.err else p k2) k
            = p k := by simp [hk]
        cases hpk : p k with
        | floodWait s2 =>
            obtain ⟨ha, hs⟩ := ih acc
            constructor
            · simpa [searchAux, hpk, h2, hk, addsOf] using ha
            · simpa [searchAux, hpk, h2, hk] using hs
        | err =>
            obtain ⟨ha, hs⟩ := ih acc
            constructor
            · simpa [searchAux, hpk, h2, hk, addsOf] using ha
            · simpa [searchAux, hpk, h2, hk] using hs
        | found chats =>
            obtain ⟨ha, hs⟩ := ih (chats.foldl registerChat ([], acc)).2
            constructor
            · simp [searchAux, hpk, h2, hk, addsOf, addsOf_append, ha]
            · simp [searchAux, hpk, h2, hk, hs]

/-! ## Claim C4. -/

/-- C4, counterexample: with a provider that rate-limits `"TON"` (30 s) and
answers `"jetton"` with one channel, the sweep queries `"TON"` exactly once —
after the 30-second sleep it moves on to `"jetton"` instead of retrying
`"TON"` — and the rate-limited keyword contributes no channels. -/
theorem c4_rate_limit_counterexample :
    (search_channels_by_keywords floodOnTON ["TON", "jetton"]).1
      = [SearchEvent.query "TON", SearchEvent.sleepSecs 30,
         SearchEvent.query "jetton", SearchEvent.add "chan2",
         SearchEvent.interDelay]
    ∧ ((search_channels_by_keywords floodOnTON ["TON", "jetton"]).1).count
        (SearchEvent.query "TON") = 1
    ∧ (search_channels_by_keywords floodOnTON ["TON", "jetton"]).2
        = ["chan2"] := by
  decide

/-- C4 as amended: on an explicit rate-limit signal for a keyword,
`search_channels_by_keywords` sleeps for the provider-specified number of
seconds and then moves on to the next keyword instead of retrying it: every
keyword of the sweep is queried exactly once in order (so the sweep is not
aborted), the sleep of the provider-given duration immediately follows the
rate-limited keyword's single query, and that keyword registers no channels —
the sweep's registrations and result are the same as if its search had simply
failed. -/
theorem c4_rate_limit_amended (p : String → SearchOutcome) (kws : List String)
    (kw : String) (s : Nat) (hmem : kw ∈ kws)
    (hp : p kw = SearchOutcome.floodWait s) :
    queriesOf (search_channels_by_keywords p kws).1 = kws
    ∧ (∃ l1 l2, (search_channels_by_keywords p kws).1
        = l1 ++ SearchEvent.query kw :: SearchEvent.sleepSecs s :: l2)
    ∧ addsOf (search_channels_by_keywords p kws).1
        = addsOf (search_channels_by_keywords
            (fun k => if k = kw then SearchOutcome.err else p k) kws).1
    ∧ (search_channels_by_keywords p kws).2
        = (search_channels_by_keywords
            (fun k => if k = kw then SearchOutcome.err else p k) kws).2 := by
  obtain ⟨ha, hs⟩ := searchAux_flood_as_err p kw s hp kws []
  exact ⟨searchAux_queries p kws [], searchAux_flood_mem p kws [] kw s hmem hp,
         ha, hs⟩

/-- C4 witness: the amended theorem applied to the concrete two-keyword sweep
whose first keyword is rate-limited for 30 seconds. -/
theorem c4_rate_limit_witness :
    ("TON" ∈ ["TON", "jetton"]
      ∧ floodOnTON "TON" = SearchOutcome.floodWait 30)
    ∧ queriesOf (search_channels_by_keywords floodOnTON ["TON", "jetton"]).1
        = ["TON", "jetton"]
    ∧ (∃ l1 l2, (search_channels_by_keywords floodOnTON ["TON", "jetton"]).1
        = l1 ++ SearchEvent.query "TON" :: SearchEvent.sleepSecs 30 :: l2)
    ∧ addsOf (search_channels_by_keywords floodOnTON ["TON", "jetton"]).1
        = addsOf (search_channels_by_keywords
            (fun k => if k = "TON" then SearchOutcome.err else floodOnTON k)
            ["TON", "jetton"]).1
    ∧ (search_channels_by_keywords floodOnTON ["TON", "jetton"]).2
        = (search_channels_by_keywords
            (fun k => if k = "TON" then SearchOutcome.err else floodOnTON k)
            ["TON", "jetton"]).2 := by
  have h := c4_rate_limit_amended floodOnTON ["TON", "jetton"] "TON" 30
    (by decide) rfl
  exact ⟨⟨by decide, rfl⟩, h.1, h.2.1, h.2.2.1, h.2.2.2⟩

/-! ## Claim C5. -/

/-- C5: on the shipped configuration, `discover_new_channels` aborts on every
run regardless of the database state or the provider: the cap subscript
`CHANNEL_DISCOVERY["max_channels_total"]` raises a `KeyError` (the config
names that limit `"max_monitored_channels"`), which the function's outer
`except` catches — so discovery never reaches the keyword search or the
unscanned-channel sweep even when far below the cap. -/
theorem c5_discovery_always_aborts (provider : String → SearchOutcome)
    (st : SpiderState) :
    discover_new_channels CHANNEL_DISCOVERY provider st
      = DiscoverResult.skippedError := rfl

/-! ## Claim C6. -/

/-- The holder sub-score is the running maximum of the three checks'
contributions. -/
lemma analyze_holders_cons_fst (h0 : Holder) (rest : List Holder) :
    (analyze_holders (h0 :: rest)).1 =
      max (max (if h0.percent > 50 then 95/100
                else if h0.percent > 30 then 7/10 else 0)
               (if (h0 :: rest).length < 10 then 6/10 else 0))
          (if (((h0 :: rest).take 5).map Holder.percent).sum > 90
           then 8/10 else 0) := by
  dsimp only [analyze_holders]
  split_ifs <;> norm_num [max_def]

/-- C6, counterexample: a single holder owning exactly 50 % takes the `> 30`
branch, so the sub-score is `0.7`, not `≥ 0.95`, although the top holder's
percentage is `≥ 50` (the code's threshold is strict). -/
theorem c6_top_holder_counterexample :
    (analyze_holders [⟨50⟩]).1 = 7/10
    ∧ ((50:ℚ) ≥ 50)
    ∧ ¬((7:ℚ)/10 ≥ 95/100) := by
  refine ⟨?_, by norm_num, by norm_num⟩
  rw [analyze_holders_cons_fst]
  norm_num [max_def]

/-- C6 as amended: for every non-empty holder list sorted descending by
percentage, the sub-score is `≥ 0.95` when the top holder's percentage is
strictly greater than 50, `≥ 0.7` when it lies in `(30, 50]`, and `≥ 0.8`
whenever the top-5 percentages sum to more than 90, regardless of the other
factors (the partial scores combine by running maximum). -/
theorem c6_holders_amended (h0 : Holder) (rest : List Holder)
    (_hsort : List.Pairwise (fun a b => b.percent ≤ a.percent) (h0 :: rest)) :
    (h0.percent > 50 → (analyze_holders (h0 :: rest)).1 ≥ 95/100)
    ∧ (30 < h0.percent → h0.percent ≤ 50 →
        (analyze_holders (h0 :: rest)).1 ≥ 7/10)
    ∧ ((((h0 :: rest).take 5).map Holder.percent).sum > 90 →
        (analyze_holders (h0 :: rest)).1 ≥ 8/10) := by
  rw [analyze_holders_cons_fst]
  refine ⟨fun hgt => ?_, fun h30 h50 => ?_, fun htop => ?_⟩
  · rw [ge_iff_le]
    exact le_max_of_le_left (le_max_of_le_left (by rw [if_pos hgt]))
  · rw [ge_iff_le]
    refine le_max_of_le_left (le_max_of_le_left ?_)
    rw [if_neg (not_lt.mpr h50), if_pos h30]
  · rw [ge_iff_le]
    exact le_max_of_le_right (by rw [if_pos htop])

/-- C6 witness: the amended theorem applied to the sorted list
`[60, 20, 5, 5, 5]` (top holder above 50 %, top-5 sum 95 %). -/
theorem c6_holders_witness :
    (analyze_holders [(⟨60⟩ : Holder), ⟨20⟩, ⟨5⟩, ⟨5⟩, ⟨5⟩]).1 ≥ 95/100
    ∧ (analyze_holders [(⟨60⟩ : Holder), ⟨20⟩, ⟨5⟩, ⟨5⟩, ⟨5⟩]).1 ≥ 8/10 := by
  have h := c6_holders_amended ⟨60⟩ [⟨20⟩, ⟨5⟩, ⟨5⟩, ⟨5⟩]
    (by simp [List.pairwise_cons]; norm_num)
  exact ⟨h.1 (by norm_num), h.2.2 (by norm_num)⟩

/-! ## Claim C7. -/

/-- C7: `get_complete_jetton_data` assembles the dict from the four fetchers,
each a function of its own remote response only (the `asyncio.gather` fan-out
makes the four retrievals independent); a non-200 status or an exception at
any single source degrades exactly that source's entry to its empty/absent
value (`None`, `{}`, `[]`, `None`) and leaves the other three entries
untouched; the function is total — it never raises. -/
theorem c7_fetch_isolation (r1 : FetchInput JettonDetails)
    (r2 : FetchInput (List (String × Int)))
    (r3 : FetchInput (Option (List Transaction)))
    (r4 : FetchInput StonfiData) :
    ((get_complete_jetton_data r1 r2 r3 r4).details = fetch_jetton_details r1
      ∧ (get_complete_jetton_data r1 r2 r3 r4).reactions = fetch_reactions r2
      ∧ (get_complete_jetton_data r1 r2 r3 r4).transactions = fetch_transactions r3
      ∧ (get_complete_jetton_data r1 r2 r3 r4).stonfi_data = fetch_stonfi_data r4)
    ∧ (∀ r2' r3' r4', (get_complete_jetton_data r1 r2' r3' r4').details
        = (get_complete_jetton_data r1 r2 r3 r4).details)
    ∧ (∀ r1' r3' r4', (get_complete_jetton_data r1' r2 r3' r4').reactions
        = (get_complete_jetton_data r1 r2 r3 r4).reactions)
    ∧ (∀ r1' r2' r4', (get_complete_jetton_data r1' r2' r3 r4').transactions
        = (get_complete_jetton_data r1 r2 r3 r4).transactions)
    ∧ (∀ r1' r2' r3', (get_complete_jetton_data r1' r2' r3' r4).stonfi_data
        = (get_complete_jetton_data r1 r2 r3 r4).stonfi_data)
    ∧ (∀ s b, r1 = FetchInput.ok s b → s ≠ 200 →
        (get_complete_jetton_data r1 r2 r3 r4).details = none)
    ∧ (r1 = FetchInput.exn →
        (get_complete_jetton_data r1 r2 r3 r4).details = none)
    ∧ (∀ s b, r2 = FetchInput.ok s b → s ≠ 200 →
        (get_complete_jetton_data r1 r2 r3 r4).reactions = [])
    ∧ (r2 = FetchInput.exn →
        (get_complete_jetton_data r1 r2 r3 r4).reactions = [])
    ∧ (∀ s b, r3 = FetchInput.ok s b → s ≠ 200 →
        (get_complete_jetton_data r1 r2 r3 r4).transactions = [])
    ∧ (r3 = FetchInput.exn →
        (get_complete_jetton_data r1 r2 r3 r4).transactions = [])
    ∧ (∀ s b, r4 = FetchInput.ok s b → s ≠ 200 →
        (get_complete_jetton_data r1 r2 r3 r4).stonfi_data = none)
    ∧ (r4 = FetchInput.exn →
        (get_complete_jetton_data r1 r2 r3 r4).stonfi_data = none) := by
  refine ⟨⟨rfl, rfl, rfl, rfl⟩, fun _ _ _ => rfl, fun _ _ _ => rfl,
    fun _ _ _ => rfl, fun _ _ _ => rfl, ?_, ?_, ?_, ?_, ?_, ?_, ?_, ?_⟩
  · intro s b h hs; subst h
    simp [get_complete_jetton_data, fetch_jetton_details, hs]
  · intro h; subst h; rfl
  · intro s b h hs; subst h
    simp [get_complete_jetton_data, fetch_reactions, hs]
  · intro h; subst h; rfl
  · intro s b h hs; subst h
    simp [get_complete_jetton_data, fetch_transactions, hs]
  · intro h; subst h; rfl
  · intro s b h hs; subst h
    simp [get_complete_jetton_data, fetch_stonfi_data, hs]
  · intro h; subst h; rfl

/-- C7 witness: details source raises, reactions returns HTTP 500,
transactions returns HTTP 404, liquidity raises — every entry degrades to its
empty value, none of the failures disturbs the others. -/
theorem c7_fetch_isolation_witness :
    (get_complete_jetton_data FetchInput.exn (FetchInput.ok 500 [("fire", 1)])
        (FetchInput.ok 404 (some [{}])) FetchInput.exn).details = none
    ∧ (get_complete_jetton_data FetchInput.exn (FetchInput.ok 500 [("fire", 1)])
        (FetchInput.ok 404 (some [{}])) FetchInput.exn).reactions = []
    ∧ (get_complete_jetton_data FetchInput.exn (FetchInput.ok 500 [("fire", 1)])
        (FetchInput.ok 404 (some [{}])) FetchInput.exn).transactions = []
    ∧ (get_complete_jetton_data FetchInput.exn (FetchInput.ok 500 [("fire", 1)])
        (FetchInput.ok 404 (some [{}])) FetchInput.exn).stonfi_data = none := by
  obtain ⟨_, _, _, _, _, _, hdexn, hrok, _, htok, _, _, hsexn⟩ :=
    c7_fetch_isolation FetchInput.exn (FetchInput.ok 500 [("fire", 1)])
      (FetchInput.ok 404 (some [{}])) FetchInput.exn
  exact ⟨hdexn rfl, hrok 500 [("fire", 1)] rfl (by norm_num),
         htok 404 (some [{}]) rfl (by norm_num), hsexn rfl⟩

/-! ## Claim C8. -/

/-- C8: a new candidate starts at confidence `0.3`; every further mention of
the same name increments the mention count by one and sets the confidence to
`min 1 (confidence + 0.1)` — so along any run of repeated mentions the
confidence is non-decreasing and never exceeds `1.0`. -/
theorem c8_confidence_monotone (name text : String) (k : Nat) :
    (newPotentialToken name text).confidence_score = 3/10
    ∧ (mentionUpdate^[k] (newPotentialToken name text)).confidence_score ≤
        (mentionUpdate^[k + 1] (newPotentialToken name text)).confidence_score
    ∧ (mentionUpdate^[k + 1] (newPotentialToken name text)).confidence_score ≤ 1
    ∧ (mentionUpdate^[k + 1] (newPotentialToken name text)).mention_count =
        (mentionUpdate^[k] (newPotentialToken name text)).mention_count + 1
    ∧ (mentionUpdate^[k + 1] (newPotentialToken name text)).confidence_score =
        min 1 ((mentionUpdate^[k] (newPotentialToken name text)).confidence_score
                + 1/10) := by
  have hle : ∀ n,
      (mentionUpdate^[n] (newPotentialToken name text)).confidence_score ≤ 1 := by
    intro n
    induction n with
    | zero => norm_num [newPotentialToken]
    | succ m ih =>
        rw [Function.iterate_succ_apply']
        exact min_le_left _ _
  refine ⟨rfl, ?_, ?_, ?_, ?_⟩
  · rw [Function.iterate_succ_apply']
    exact le_min (hle k) (le_add_of_nonneg_right (by norm_num))
  · rw [Function.iterate_succ_apply']
    exact min_le_left _ _
  · rw [Function.iterate_succ_apply']
    rfl
  · rw [Function.iterate_succ_apply']
    rfl

/-! ## Claim C9. -/

/-- C9: `_extract_channel_links` is a pure function of the input text —
re-running yields the same result, the returned identifiers are de-duplicated
across all four patterns, and on
`"join @cryptoton_news and t.me/cryptoton_news"` (where both the `@` pattern
and the `t.me/` pattern match) it yields exactly the one identifier
`"cryptoton_news"`. -/
theorem c9_extract_links :
    (∀ t : String, extract_channel_links t = extract_channel_links t)
    ∧ (∀ t : String, (extract_channel_links t).Nodup)
    ∧ extract_channel_links "join @cryptoton_news and t.me/cryptoton_news"
        = ["cryptoton_news"] := by
  refine ⟨fun t => rfl, fun t => List.nodup_dedup _, ?_⟩
  decide

/-! ## Claim C10. -/

/-- C10: the marketplace-match branch of `check_external_tokens` sets the
candidate's confidence to the fixed `0.9` and marks it found; hence for a
candidate whose mention-driven confidence already reached `1.0`,
reconciliation strictly lowers the confidence — monotonicity holds only for
the mention operation. -/
theorem c10_reconcile_lowers (t : PotentialToken) :
    (reconcileWithMemepad true t).confidence_score = 9/10
    ∧ (reconcileWithMemepad true t).found_on_memepad = true
    ∧ (t.confidence_score = 1 →
        (reconcileWithMemepad true t).confidence_score < t.confidence_score)
    ∧ reconcileWithMemepad false t = t := by
  refine ⟨rfl, rfl, ?_, rfl⟩
  intro h1
  have h2 : (reconcileWithMemepad true t).confidence_score = 9/10 := rfl
  rw [h1, h2]
  norm_num

/-- C10 witness: a candidate at confidence `1.0` is strictly demoted to `0.9`
by reconciliation. -/
theorem c10_reconcile_witness :
    (reconcileWithMemepad true
        { name := "DOGE", description := "msg", mention_count := 7,
          confidence_score := 1, found_on_memepad := false }).confidence_score
      < (1 : ℚ) := by
  have h := (c10_reconcile_lowers
    { name := "DOGE", description := "msg", mention_count := 7,
      confidence_score := 1, found_on_memepad := false }).2.2.1 rfl
  exact h

end CryptxSpider
